import Mathlib

/-!
Shallow embedding of the ZumoBuzzer ESP32 port (ZumoBuzzer.cpp): the melody
mini-language parser (`nextNote`), the playback primitives (`playNote`,
`playFrequency`, `ledcSetTone`), and the sequencing entry points (`play`,
`stopPlaying`, `playCheck`, timer callback `onTimerDone`).

Machine integers are modelled as `Nat` with explicit reduction:
`unsigned int` arithmetic is taken `% 4294967296` where the C code can
overflow, `unsigned char` values `% 256`.  The melody string is a
`List Char`; the C `buzzerSequence` pointer becomes the remaining suffix
(`none` models the null pointer).  Calls into the vendor SDK (LEDC duty
writes, hardware-timer arming) are recorded as observable fields of the
state.  A few ghost fields (`lastPlayNote`, `lastSetTone`, `lastArmed`,
`computedDuration`, `divByZero`) record, without influencing control flow,
the arguments of dispatch calls and whether a division with zero divisor
was evaluated (undefined behaviour in C).
-/

/-- Modelled from the spec: the sentinel high bit marking a frequency in
tenths of Hz ("Tenths-of-Hz flag ... encoded via a high bit"); the value
`1 <<< 15` is the `DIV_BY_10` constant of the `ZumoBuzzer.h` header, which
is not among the repository sources. -/
def DIV_BY_10 : Nat := 32768

/-- Modelled from the spec: the distinguished "silent" pseudo-note value
representing rests (`SILENT_NOTE` in the `ZumoBuzzer.h` header, not among
the repository sources; its conventional value is `0xFF`). -/
def SILENT_NOTE : Nat := 255

/-- Modelled from the spec: the automatic play mode (default), constant
`PLAY_AUTOMATIC` of the header. -/
def PLAY_AUTOMATIC : Nat := 0

/-- Modelled from the spec: base semitone offsets of the note letters
within octave 0 ("a=9, b=11, c=0, d=2, e=4, f=5, g=7"), the `NOTE_A(0)`
... `NOTE_G(0)` macros of the header. -/
def NOTE_A0 : Nat := 9

/-- Modelled from the spec: base offset of note letter b. -/
def NOTE_B0 : Nat := 11

/-- Modelled from the spec: base offset of note letter c. -/
def NOTE_C0 : Nat := 0

/-- Modelled from the spec: base offset of note letter d. -/
def NOTE_D0 : Nat := 2

/-- Modelled from the spec: base offset of note letter e. -/
def NOTE_E0 : Nat := 4

/-- Modelled from the spec: base offset of note letter f. -/
def NOTE_F0 : Nat := 5

/-- Modelled from the spec: base offset of note letter g. -/
def NOTE_G0 : Nat := 7

/-- 12-bit LEDC duty resolution: `LEDC_DUTY_MAX = (1U << 12) - 1`. -/
def LEDC_DUTY_MAX : Nat := 4095

/-- Unsigned 32-bit modulus. -/
def U32 : Nat := 4294967296

/-- Lowercasing done inside `currentCharacter`:
`if (c >= 'A' && c <= 'Z') c += 'a' - 'A';`. -/
def lower (c : Char) : Char :=
  if 'A' ≤ c ∧ c ≤ 'Z' then Char.ofNat (c.toNat + 32) else c

/-- The space-skipping of `currentCharacter`'s do-while loop: the global
cursor is advanced past literal spaces (only `' '` lowercases to `' '`). -/
def skipSpaces : List Char → List Char
  | [] => []
  | c :: cs => if c = ' ' then skipSpaces cs else c :: cs

/-- The value returned by `currentCharacter()`: the first non-space
character, lowercased; reading the terminating NUL of the C string is
modelled by `Char.ofNat 0` on the empty suffix. -/
def currentChar (l : List Char) : Char :=
  match skipSpaces l with
  | [] => Char.ofNat 0
  | c :: _ => lower c

/-- Digit test of `getNumber`: `c >= '0' && c <= '9'`. -/
def isDig (c : Char) : Bool :=
  decide ('0' ≤ c) && decide (c ≤ '9')

/-- One accumulation step of `getNumber`: `arg = arg * 10 + (c - '0')` in
32-bit unsigned arithmetic. -/
def digStep (a : Nat) (c : Char) : Nat :=
  (a * 10 + (c.toNat - 48)) % U32

/-- `getNumber()`: reads decimal digits through `currentCharacter` (hence
skipping spaces, which persists in the global cursor), accumulating into a
32-bit unsigned value; returns the value and the remaining suffix. -/
def getNumber (arg : Nat) : List Char → Nat × List Char
  | [] => (arg, [])
  | c :: cs =>
    if c = ' ' then getNumber arg cs
    else if isDig (lower c) then getNumber (digStep arg (lower c)) cs
    else (arg, c :: cs)

/-- The 32-bit value a digit sequence leaves in `getNumber`'s accumulator
(starting from 0). -/
def denotes32 (ds : List Char) : Nat :=
  ds.foldl digStep 0

/-- The global state of the buzzer driver: the static variables of
ZumoBuzzer.cpp plus observable records of the SDK calls.  Fixed-width
fields hold the C values as `Nat` (`octave`, `staccato_rest_duration` are
`unsigned char`; the durations, `note_type` and `volume` are
`unsigned int`). -/
structure BuzzerState where
  octave : Nat
  whole_note_duration : Nat
  note_type : Nat
  duration : Nat
  volume : Nat
  staccato : Bool
  staccato_rest_duration : Nat
  buzzerSequence : Option (List Char)
  use_program_space : Bool
  buzzerInitialized : Bool
  buzzerFinished : Bool
  buzzerTimeout_ms : Nat
  play_mode_setting : Nat
  /-- `none` models `s_timer == nullptr`; `some b` a created timer whose
  one-shot alarm is pending (`true`) or not (`false`). -/
  timer : Option Bool
  noteElapsed : Bool
  ledcAttached : Bool
  currFreq : Nat
  /-- The PWM duty currently written to the buzzer pin (0 = silent). -/
  duty : Nat
  /-- Ghost: the arguments `(note, dur, vol)` of the most recent
  `playNote` call, after conversion to the parameter types. -/
  lastPlayNote : Option (Nat × Nat × Nat)
  /-- Ghost: the arguments `(freq, vol)` of the most recent `ledcSetTone`
  call (the values handed to the Tone Driver). -/
  lastSetTone : Option (Nat × Nat)
  /-- Ghost: the duration of the most recent `armOneShotTimer` call. -/
  lastArmed : Option Nat
  /-- Ghost: the value of `tmp_duration` at line 340 of `nextNote`, i.e.
  the note duration resolved from divisor and dots, before the staccato
  split. -/
  computedDuration : Option Nat
  /-- Ghost: set when a division whose divisor is zero is evaluated
  (undefined behaviour in the C code); sticky. -/
  divByZero : Bool
  deriving DecidableEq

/-- The initial values of the static variables (lines 23-47 of the
source). -/
def initState : BuzzerState where
  octave := 4
  whole_note_duration := 2000
  note_type := 4
  duration := 500
  volume := 15
  staccato := false
  staccato_rest_duration := 0
  buzzerSequence := none
  use_program_space := false
  buzzerInitialized := false
  buzzerFinished := true
  buzzerTimeout_ms := 0
  play_mode_setting := PLAY_AUTOMATIC
  timer := none
  noteElapsed := false
  ledcAttached := false
  currFreq := 0
  duty := 0
  lastPlayNote := none
  lastSetTone := none
  lastArmed := none
  computedDuration := none
  divByZero := false

/-- `ledcEnsureSetup`: attach the pin on first use, else retune the
frequency when it changed. -/
def ledcEnsureSetup (freq : Nat) (s : BuzzerState) : BuzzerState :=
  if ¬ s.ledcAttached then { s with ledcAttached := true, currFreq := freq }
  else if freq ≠ s.currFreq then { s with currFreq := freq }
  else s

/-- `ledcSetTone`: clamp the frequency to 40..10000 Hz, then write duty 0
for volume 0 and `vol * LEDC_DUTY_MAX / 15` otherwise.  The ghost field
records the arguments handed to this Tone Driver entry. -/
def ledcSetTone (freq vol : Nat) (s : BuzzerState) : BuzzerState :=
  let s := { s with lastSetTone := some (freq, vol) }
  let freq := if freq < 40 then 40 else freq
  let freq := if freq > 10000 then 10000 else freq
  let s := ledcEnsureSetup freq s
  if vol = 0 then { s with duty := 0 }
  else { s with duty := vol * LEDC_DUTY_MAX / 15 }

/-- `armOneShotTimer`: create the timer if needed, reset it and arm a
one-shot alarm for `dur_ms` milliseconds. -/
def armOneShotTimer (dur_ms : Nat) (s : BuzzerState) : BuzzerState :=
  { s with timer := some true, lastArmed := some dur_ms }

/-- `ZumoBuzzer::init2`: attach LEDC at 1 kHz, silence, create the timer,
mark idle. -/
def init2 (s : BuzzerState) : BuzzerState :=
  let s := ledcEnsureSetup 1000 s
  let s := { s with duty := 0 }
  let s := { s with timer := if s.timer = none then some false else s.timer }
  { s with buzzerFinished := true, noteElapsed := false }

/-- `ZumoBuzzer::init`: run `init2` once. -/
def init (s : BuzzerState) : BuzzerState :=
  if s.buzzerInitialized then s else init2 { s with buzzerInitialized := true }

/-- The timer-expiration ISR `onTimerDone`: silence the PWM, set
`buzzerFinished` and the note-elapsed flag.  The one-shot alarm has fired
and is no longer pending. -/
def onTimerDone (s : BuzzerState) : BuzzerState :=
  { s with duty := 0, buzzerFinished := true, noteElapsed := true,
           timer := match s.timer with | some _ => some false | none => none }

/-- `ZumoBuzzer::playFrequency(freq, dur, volume)`: strip the
tenths-of-Hz flag, clamp frequency and volume, drive the Tone Driver
(duty 0 at 1 kHz for volume 0), then arm the duration timer.  Parameters
are reduced to their C types at entry (`unsigned int`, `unsigned int`,
`unsigned char`). -/
def playFrequency (freq dur vol_in : Nat) (s : BuzzerState) : BuzzerState :=
  let freq := freq % U32
  let dur := dur % U32
  let vol_in := vol_in % 256
  let s := init s
  let multiplier := if freq / DIV_BY_10 % 2 = 1 then 10 else 1
  let freq := if freq / DIV_BY_10 % 2 = 1 then freq - DIV_BY_10 else freq
  let minHz := 40 * multiplier
  let freq := if freq < minHz then minHz else freq
  let freq := if multiplier = 1 ∧ freq > 10000 then 10000 else freq
  let freq := if multiplier = 10 then (freq + 5) / 10 else freq
  let vol := if vol_in > 15 then 15 else vol_in
  let s := if vol = 0 then ledcSetTone 1000 0 s else ledcSetTone freq vol s
  let s := { s with buzzerFinished := false, noteElapsed := false,
                    buzzerTimeout_ms := dur }
  armOneShotTimer dur s

/-- Base-frequency table in tenths of Hz for the lowest 12 semitones
(E1 = 41.2 Hz onward), the switch at lines 187-200. -/
def noteBase : Nat → Nat
  | 0 => 412 | 1 => 437 | 2 => 463 | 3 => 490 | 4 => 519 | 5 => 550
  | 6 => 583 | 7 => 617 | 8 => 654 | 9 => 693 | 10 => 734 | 11 => 778
  | _ => 0

/-- `ZumoBuzzer::playNote(note, dur, volume)`: silent notes and volume 0
go straight to `playFrequency(1000, dur, 0)`; otherwise the semitone index
is split into octave exponent and table entry, doubled per octave with the
tenths-of-Hz flag kept below 160 Hz, and the clamped volume is passed on.
Parameters reduced to their C types at entry. -/
def playNote (note dur vol : Nat) (s : BuzzerState) : BuzzerState :=
  let note := note % 256
  let dur := dur % U32
  let vol := vol % 256
  let s := { s with lastPlayNote := some (note, dur, vol) }
  if note = SILENT_NOTE ∨ vol = 0 then
    playFrequency 1000 dur 0 s
  else
    let offset_note := (note + 256 - 16) % 256
    let offset_note :=
      if note ≤ 16 then 0 else if offset_note > 95 then 95 else offset_note
    let exponent := offset_note / 12
    let freq := noteBase (offset_note - exponent * 12)
    let freq :=
      if exponent < 7 then
        let f := freq * 2 ^ exponent
        if exponent > 1 then (f + 5) / 10 else f + DIV_BY_10
      else (freq * 64 + 2) / 5
    let vol := if vol > 15 then 15 else vol
    playFrequency freq dur vol s

/-- `ZumoBuzzer::isPlaying`: `!buzzerFinished || buzzerSequence != 0`. -/
def isPlaying (s : BuzzerState) : Bool :=
  !s.buzzerFinished || s.buzzerSequence.isSome

/-- `ZumoBuzzer::stopPlaying`: silence the output, stop the note timer
(when one exists), mark finished, drop the sequence cursor. -/
def stopPlaying (s : BuzzerState) : BuzzerState :=
  { s with duty := 0,
           timer := match s.timer with | some _ => some false | none => none,
           buzzerFinished := true,
           buzzerSequence := none }

/-- Sharp loop of `nextNote` (line 324): consume `+`/`#`, raising the
`unsigned char` note a semitone each; `currentCharacter`'s space skipping
is inlined as the `' '` case. -/
def sharps (note : Nat) : List Char → Nat × List Char
  | [] => (note, [])
  | c :: cs =>
    if c = ' ' then sharps note cs
    else if lower c = '+' ∨ lower c = '#' then sharps ((note + 1) % 256) cs
    else (note, c :: cs)

/-- Flat loop of `nextNote` (line 325): consume `-`, lowering the note a
semitone each (unsigned char wraparound). -/
def flats (note : Nat) : List Char → Nat × List Char
  | [] => (note, [])
  | c :: cs =>
    if c = ' ' then flats note cs
    else if lower c = '-' then flats ((note + 255) % 256) cs
    else (note, c :: cs)

/-- Explicit duration divisor of `nextNote` (lines 328-331):
`tmp_duration = duration; if (c > '0' && c < '9') tmp_duration =
whole_note_duration / getNumber();`.  Returns the duration, the remaining
suffix, and whether the division's divisor was zero (possible only through
32-bit wraparound of the digit sequence). -/
def noteDuration (l : List Char) (s : BuzzerState) : Nat × List Char × Bool :=
  if '0' < currentChar l ∧ currentChar l < '9' then
    let p := getNumber 0 l
    (s.whole_note_duration / p.1, p.2, decide (p.1 = 0))
  else (s.duration, skipSpaces l, false)

/-- Dotted-note loop of `nextNote` (lines 333-338): each dot adds
`dot_add` (32-bit addition) and halves it. -/
def dots (tmp_duration dot_add : Nat) : List Char → Nat × List Char
  | [] => (tmp_duration, [])
  | c :: cs =>
    if c = ' ' then dots tmp_duration dot_add cs
    else if lower c = '.' then dots ((tmp_duration + dot_add) % U32) (dot_add / 2) cs
    else (tmp_duration, c :: cs)

/-- Lines 340-345 of `nextNote`: the staccato split (`staccato_rest_duration`
is an `unsigned char`, so the stored rest is `tmp_duration / 2 % 256`)
followed by the `playNote` dispatch; the remaining suffix becomes the new
cursor.  The ghost field records `tmp_duration` before the split. -/
def dispatch (note : Nat) (isRest : Bool) (d : Nat) (l : List Char)
    (s : BuzzerState) : BuzzerState :=
  let s := { s with computedDuration := some d }
  if s.staccato then
    playNote (if isRest then SILENT_NOTE else note) (d - d / 2 % 256) s.volume
      { s with staccato_rest_duration := d / 2 % 256, buzzerSequence := some l }
  else
    playNote (if isRest then SILENT_NOTE else note) d s.volume
      { s with buzzerSequence := some l }

/-- Lines 320-345 of `nextNote`: everything after the switch breaks on a
note letter or rest: octave shift, sharps/flats, duration, dots, staccato
and dispatch. -/
def finishNote (base : Nat) (isRest : Bool) (tmp_octave : Nat)
    (l : List Char) (s : BuzzerState) : BuzzerState :=
  let note := (base + tmp_octave * 12) % 256
  let p := sharps note l
  let q := flats p.1 p.2
  let nd := noteDuration q.2 s
  let dd := dots nd.1 (nd.1 / 2) nd.2.1
  dispatch q.1 isRest dd.1 dd.2 { s with divByZero := s.divByZero || nd.2.2 }

/-- Result of one `parse_character` iteration: either loop again with a
new session octave, suffix and state, or leave the loop with a final
state. -/
inductive StepRes where
  | cont (tmp : Nat) (l : List Char) (s : BuzzerState)
  | halt (s : BuzzerState)
  deriving DecidableEq

/-- Token classification: the case labels of the switch in `nextNote`
(lines 279-317), applied to the lowercased character.  Spaces are listed
because the model consumes them one per loop iteration (inside
`currentCharacter` in the C code). -/
inductive Tok where
  | space
  | octUp
  | octDown
  | note (base : Nat)
  | restTok
  | setLength
  | setStyle
  | setOctave
  | setTempo
  | setVolume
  | resetAll
  | other
  deriving DecidableEq

/-- Which switch case a character selects (after lowercasing). -/
def tokOf (c : Char) : Tok :=
  if c = ' ' then .space
  else if lower c = '>' then .octUp
  else if lower c = '<' then .octDown
  else if lower c = 'a' then .note NOTE_A0
  else if lower c = 'b' then .note NOTE_B0
  else if lower c = 'c' then .note NOTE_C0
  else if lower c = 'd' then .note NOTE_D0
  else if lower c = 'e' then .note NOTE_E0
  else if lower c = 'f' then .note NOTE_F0
  else if lower c = 'g' then .note NOTE_G0
  else if lower c = 'l' then .setLength
  else if lower c = 'm' then .setStyle
  else if lower c = 'o' then .setOctave
  else if lower c = 'r' then .restTok
  else if lower c = 't' then .setTempo
  else if lower c = 'v' then .setVolume
  else if lower c = '!' then .resetAll
  else .other

/-- The switch of one `parse_character` iteration, on a non-empty suffix
`c :: cs` (lines 276-318).  Unrecognized characters (the `default`
branch) clear the cursor. -/
def parseStepAux (tmp : Nat) (c : Char) (cs : List Char) (s : BuzzerState) : StepRes :=
  match tokOf c with
  | .space => .cont tmp cs s
  | .octUp => .cont ((tmp + 1) % 256) cs s
  | .octDown => .cont ((tmp + 255) % 256) cs s
  | .note base => .halt (finishNote base false tmp cs s)
  | .restTok => .halt (finishNote 0 true tmp cs s)
  | .setLength =>
    let p := getNumber 0 cs
    .cont tmp p.2
      { s with note_type := p.1, duration := s.whole_note_duration / p.1,
               divByZero := s.divByZero || decide (p.1 = 0) }
  | .setStyle =>
    let s := if currentChar cs = 'l' then { s with staccato := false }
             else { s with staccato := true, staccato_rest_duration := 0 }
    .cont tmp (skipSpaces cs).tail s
  | .setOctave =>
    let p := getNumber 0 cs
    .cont (p.1 % 256) p.2 { s with octave := p.1 % 256 }
  | .setTempo =>
    let p := getNumber 0 cs
    let w := 60 * 400 / p.1 * 10
    .cont tmp p.2
      { s with whole_note_duration := w, duration := w / s.note_type,
               divByZero := s.divByZero || decide (p.1 = 0)
                              || decide (s.note_type = 0) }
  | .setVolume =>
    let p := getNumber 0 cs
    .cont tmp p.2 { s with volume := p.1 }
  | .resetAll =>
    .cont 4 cs
      { s with octave := 4, whole_note_duration := 2000, note_type := 4,
               duration := 500, volume := 15, staccato := false }
  | .other => .halt { s with buzzerSequence := none }

/-- One iteration of the `parse_character` goto loop of `nextNote`
(lines 275-318): fetch the character, advance the cursor, and run the
switch; the terminating NUL of an exhausted string falls into the
`default` branch. -/
def parseStep (tmp : Nat) : List Char → BuzzerState → StepRes
  | [], s => .halt { s with buzzerSequence := none }
  | c :: cs, s => parseStepAux tmp c cs s

/-- The `parse_character` loop, fuelled.  Every iteration consumes at
least one character, so `length + 1` fuel always suffices (the fuel-0 case
is unreachable then). -/
def parseLoopF : Nat → Nat → List Char → BuzzerState → BuzzerState
  | 0, _, _, s => { s with buzzerSequence := none }
  | fuel + 1, tmp, l, s =>
    match parseStep tmp l s with
    | .halt t => t
    | .cont tmp' l' s' => parseLoopF fuel tmp' l' s'

/-- The `parse_character` loop of `nextNote`, run to completion. -/
def parseLoop (tmp : Nat) (l : List Char) (s : BuzzerState) : BuzzerState :=
  parseLoopF (l.length + 1) tmp l s

/-- `nextNote()`: a pending staccato rest is dispatched first as a silent
note; otherwise the parse loop runs from the current cursor with the
session octave initialised from the persistent `octave`.  (A null cursor
is never passed by the callers; we leave the state unchanged there.) -/
def nextNote (s : BuzzerState) : BuzzerState :=
  if s.staccato ∧ s.staccato_rest_duration ≠ 0 then
    playNote SILENT_NOTE s.staccato_rest_duration 0
      { s with staccato_rest_duration := 0 }
  else
    match s.buzzerSequence with
    | none => s
    | some l => parseLoop s.octave l s

/-- `ZumoBuzzer::play(notes)`: bind the sequence, clear any carried
staccato rest, parse and dispatch the first note. -/
def play (notes : List Char) (s : BuzzerState) : BuzzerState :=
  nextNote { s with buzzerSequence := some notes, use_program_space := false,
                    staccato_rest_duration := 0 }

/-- `ZumoBuzzer::playFromProgramSpace(notes)`: identical but reading from
program space (the byte fetch is functionally the same). -/
def playFromProgramSpace (notes : List Char) (s : BuzzerState) : BuzzerState :=
  nextNote { s with buzzerSequence := some notes, use_program_space := true,
                    staccato_rest_duration := 0 }

/-- `ZumoBuzzer::playCheck()`: drain the note-elapsed flag and advance the
sequence in main context; returns whether a sequence is still bound. -/
def playCheck (s : BuzzerState) : Bool × BuzzerState :=
  let s1 :=
    if s.noteElapsed then
      let s' := { s with noteElapsed := false }
      if s'.buzzerSequence.isSome ∧ s'.play_mode_setting = PLAY_AUTOMATIC then
        nextNote s'
      else s'
    else s
  let s2 :=
    if s1.buzzerFinished ∧ s1.buzzerSequence.isSome
        ∧ s1.play_mode_setting = PLAY_AUTOMATIC then
      nextNote s1
    else s1
  (s2.buzzerSequence.isSome, s2)

/-! ## Basic lemmas about the cursor-consuming loops -/

theorem skipSpaces_length (l : List Char) : (skipSpaces l).length ≤ l.length := by
  induction l with
  | nil => simp [skipSpaces]
  | cons c cs ih =>
    simp only [skipSpaces]
    split
    · exact Nat.le_succ_of_le ih
    · simp

theorem getNumber_length (a : Nat) (l : List Char) :
    (getNumber a l).2.length ≤ l.length := by
  induction l generalizing a with
  | nil => simp [getNumber]
  | cons c cs ih =>
    simp only [getNumber]
    split
    · exact Nat.le_succ_of_le (ih a)
    · split
      · exact Nat.le_succ_of_le (ih _)
      · simp

theorem parseStep_cont_length {tmp : Nat} {l : List Char} {s : BuzzerState}
    {tmp' : Nat} {l' : List Char} {s' : BuzzerState}
    (h : parseStep tmp l s = .cont tmp' l' s') : l'.length < l.length := by
  match l with
  | [] => simp [parseStep] at h
  | c :: cs =>
    simp only [parseStep, parseStepAux] at h
    cases htok : tokOf c <;> rw [htok] at h <;>
      first
      | (cases h; exact Nat.lt_succ_of_le (Nat.le_refl _))
      | (cases h; exact Nat.lt_succ_of_le (getNumber_length _ _))
      | (cases h;
         have h1 := skipSpaces_length cs;
         have h2 : (skipSpaces cs).tail.length = (skipSpaces cs).length - 1 :=
           List.length_tail _;
         simp only [List.length_cons]; omega)
      | cases h

/-- The fuel value is irrelevant as long as it exceeds the length of the
remaining suffix (each iteration consumes at least one character). -/
theorem parseLoopF_stable (n : Nat) : ∀ (f1 f2 tmp : Nat) (l : List Char)
    (s : BuzzerState), l.length ≤ n → l.length < f1 → l.length < f2 →
    parseLoopF f1 tmp l s = parseLoopF f2 tmp l s := by
  induction n with
  | zero =>
    intro f1 f2 tmp l s hn h1 h2
    match l, hn with
    | [], _ =>
      match f1, h1 with
      | f1 + 1, _ =>
        match f2, h2 with
        | f2 + 1, _ => rfl
  | succ n ih =>
    intro f1 f2 tmp l s hn h1 h2
    match f1, h1 with
    | f1 + 1, _ =>
      match f2, h2 with
      | f2 + 1, _ =>
        show (match parseStep tmp l s with
              | .halt t => t
              | .cont tmp' l' s' => parseLoopF f1 tmp' l' s') =
             (match parseStep tmp l s with
              | .halt t => t
              | .cont tmp' l' s' => parseLoopF f2 tmp' l' s')
        cases hps : parseStep tmp l s with
        | halt t => rfl
        | cont tmp' l' s' =>
          have hlt := parseStep_cont_length hps
          exact ih f1 f2 tmp' l' s' (by omega) (by omega) (by omega)

/-- Canonical unfolding of the parse loop: run one iteration of the
switch, then continue. -/
theorem parseLoop_eq (tmp : Nat) (l : List Char) (s : BuzzerState) :
    parseLoop tmp l s =
      (match parseStep tmp l s with
       | .halt t => t
       | .cont tmp' l' s' => parseLoop tmp' l' s') := by
  show parseLoopF (l.length + 1) tmp l s = _
  rw [parseLoopF]
  cases hps : parseStep tmp l s with
  | halt t => rfl
  | cont tmp' l' s' =>
    have hlt := parseStep_cont_length hps
    exact parseLoopF_stable l.length l.length (l'.length + 1) tmp' l' s'
      (by omega) (by omega) (by omega)

/-! ## Projection lemmas for the playback primitives -/

@[simp] theorem ledcEnsureSetup_computedDuration (f : Nat) (s : BuzzerState) :
    (ledcEnsureSetup f s).computedDuration = s.computedDuration := by
  unfold ledcEnsureSetup; split_ifs <;> rfl

@[simp] theorem ledcEnsureSetup_lastPlayNote (f : Nat) (s : BuzzerState) :
    (ledcEnsureSetup f s).lastPlayNote = s.lastPlayNote := by
  unfold ledcEnsureSetup; split_ifs <;> rfl

@[simp] theorem ledcEnsureSetup_lastSetTone (f : Nat) (s : BuzzerState) :
    (ledcEnsureSetup f s).lastSetTone = s.lastSetTone := by
  unfold ledcEnsureSetup; split_ifs <;> rfl

@[simp] theorem ledcEnsureSetup_lastArmed (f : Nat) (s : BuzzerState) :
    (ledcEnsureSetup f s).lastArmed = s.lastArmed := by
  unfold ledcEnsureSetup; split_ifs <;> rfl

@[simp] theorem ledcEnsureSetup_buzzerSequence (f : Nat) (s : BuzzerState) :
    (ledcEnsureSetup f s).buzzerSequence = s.buzzerSequence := by
  unfold ledcEnsureSetup; split_ifs <;> rfl

@[simp] theorem ledcEnsureSetup_staccato_rest (f : Nat) (s : BuzzerState) :
    (ledcEnsureSetup f s).staccato_rest_duration = s.staccato_rest_duration := by
  unfold ledcEnsureSetup; split_ifs <;> rfl

@[simp] theorem ledcEnsureSetup_divByZero (f : Nat) (s : BuzzerState) :
    (ledcEnsureSetup f s).divByZero = s.divByZero := by
  unfold ledcEnsureSetup; split_ifs <;> rfl

@[simp] theorem ledcEnsureSetup_duty (f : Nat) (s : BuzzerState) :
    (ledcEnsureSetup f s).duty = s.duty := by
  unfold ledcEnsureSetup; split_ifs <;> rfl

@[simp] theorem ledcEnsureSetup_timer (f : Nat) (s : BuzzerState) :
    (ledcEnsureSetup f s).timer = s.timer := by
  unfold ledcEnsureSetup; split_ifs <;> rfl

@[simp] theorem ledcEnsureSetup_buzzerFinished (f : Nat) (s : BuzzerState) :
    (ledcEnsureSetup f s).buzzerFinished = s.buzzerFinished := by
  unfold ledcEnsureSetup; split_ifs <;> rfl

@[simp] theorem ledcEnsureSetup_noteElapsed (f : Nat) (s : BuzzerState) :
    (ledcEnsureSetup f s).noteElapsed = s.noteElapsed := by
  unfold ledcEnsureSetup; split_ifs <;> rfl

@[simp] theorem ledcEnsureSetup_buzzerTimeout (f : Nat) (s : BuzzerState) :
    (ledcEnsureSetup f s).buzzerTimeout_ms = s.buzzerTimeout_ms := by
  unfold ledcEnsureSetup; split_ifs <;> rfl

@[simp] theorem ledcEnsureSetup_staccato (f : Nat) (s : BuzzerState) :
    (ledcEnsureSetup f s).staccato = s.staccato := by
  unfold ledcEnsureSetup; split_ifs <;> rfl

@[simp] theorem ledcEnsureSetup_volume (f : Nat) (s : BuzzerState) :
    (ledcEnsureSetup f s).volume = s.volume := by
  unfold ledcEnsureSetup; split_ifs <;> rfl

@[simp] theorem ledcEnsureSetup_whole (f : Nat) (s : BuzzerState) :
    (ledcEnsureSetup f s).whole_note_duration = s.whole_note_duration := by
  unfold ledcEnsureSetup; split_ifs <;> rfl

@[simp] theorem ledcEnsureSetup_note_type (f : Nat) (s : BuzzerState) :
    (ledcEnsureSetup f s).note_type = s.note_type := by
  unfold ledcEnsureSetup; split_ifs <;> rfl

@[simp] theorem ledcEnsureSetup_duration (f : Nat) (s : BuzzerState) :
    (ledcEnsureSetup f s).duration = s.duration := by
  unfold ledcEnsureSetup; split_ifs <;> rfl

@[simp] theorem ledcEnsureSetup_octave (f : Nat) (s : BuzzerState) :
    (ledcEnsureSetup f s).octave = s.octave := by
  unfold ledcEnsureSetup; split_ifs <;> rfl

@[simp] theorem ledcSetTone_computedDuration (f v : Nat) (s : BuzzerState) :
    (ledcSetTone f v s).computedDuration = s.computedDuration := by
  simp only [ledcSetTone]; split_ifs <;> simp

@[simp] theorem ledcSetTone_lastPlayNote (f v : Nat) (s : BuzzerState) :
    (ledcSetTone f v s).lastPlayNote = s.lastPlayNote := by
  simp only [ledcSetTone]; split_ifs <;> simp

@[simp] theorem ledcSetTone_lastSetTone (f v : Nat) (s : BuzzerState) :
    (ledcSetTone f v s).lastSetTone = some (f, v) := by
  simp only [ledcSetTone]; split_ifs <;> simp

@[simp] theorem ledcSetTone_lastArmed (f v : Nat) (s : BuzzerState) :
    (ledcSetTone f v s).lastArmed = s.lastArmed := by
  simp only [ledcSetTone]; split_ifs <;> simp

@[simp] theorem ledcSetTone_buzzerSequence (f v : Nat) (s : BuzzerState) :
    (ledcSetTone f v s).buzzerSequence = s.buzzerSequence := by
  simp only [ledcSetTone]; split_ifs <;> simp

@[simp] theorem ledcSetTone_staccato_rest (f v : Nat) (s : BuzzerState) :
    (ledcSetTone f v s).staccato_rest_duration = s.staccato_rest_duration := by
  simp only [ledcSetTone]; split_ifs <;> simp

@[simp] theorem ledcSetTone_divByZero (f v : Nat) (s : BuzzerState) :
    (ledcSetTone f v s).divByZero = s.divByZero := by
  simp only [ledcSetTone]; split_ifs <;> simp

@[simp] theorem ledcSetTone_timer (f v : Nat) (s : BuzzerState) :
    (ledcSetTone f v s).timer = s.timer := by
  simp only [ledcSetTone]; split_ifs <;> simp

@[simp] theorem ledcSetTone_buzzerFinished (f v : Nat) (s : BuzzerState) :
    (ledcSetTone f v s).buzzerFinished = s.buzzerFinished := by
  simp only [ledcSetTone]; split_ifs <;> simp

@[simp] theorem ledcSetTone_noteElapsed (f v : Nat) (s : BuzzerState) :
    (ledcSetTone f v s).noteElapsed = s.noteElapsed := by
  simp only [ledcSetTone]; split_ifs <;> simp

@[simp] theorem ledcSetTone_buzzerTimeout (f v : Nat) (s : BuzzerState) :
    (ledcSetTone f v s).buzzerTimeout_ms = s.buzzerTimeout_ms := by
  simp only [ledcSetTone]; split_ifs <;> simp

@[simp] theorem ledcSetTone_staccato (f v : Nat) (s : BuzzerState) :
    (ledcSetTone f v s).staccato = s.staccato := by
  simp only [ledcSetTone]; split_ifs <;> simp

@[simp] theorem ledcSetTone_volume (f v : Nat) (s : BuzzerState) :
    (ledcSetTone f v s).volume = s.volume := by
  simp only [ledcSetTone]; split_ifs <;> simp

@[simp] theorem ledcSetTone_whole (f v : Nat) (s : BuzzerState) :
    (ledcSetTone f v s).whole_note_duration = s.whole_note_duration := by
  simp only [ledcSetTone]; split_ifs <;> simp

@[simp] theorem ledcSetTone_note_type (f v : Nat) (s : BuzzerState) :
    (ledcSetTone f v s).note_type = s.note_type := by
  simp only [ledcSetTone]; split_ifs <;> simp

@[simp] theorem ledcSetTone_duration_field (f v : Nat) (s : BuzzerState) :
    (ledcSetTone f v s).duration = s.duration := by
  simp only [ledcSetTone]; split_ifs <;> simp

@[simp] theorem ledcSetTone_octave (f v : Nat) (s : BuzzerState) :
    (ledcSetTone f v s).octave = s.octave := by
  simp only [ledcSetTone]; split_ifs <;> simp

theorem ledcSetTone_duty (f v : Nat) (s : BuzzerState) :
    (ledcSetTone f v s).duty = if v = 0 then 0 else v * LEDC_DUTY_MAX / 15 := by
  simp only [ledcSetTone]; split_ifs <;> simp

@[simp] theorem init_computedDuration (s : BuzzerState) :
    (init s).computedDuration = s.computedDuration := by
  unfold init init2; split_ifs <;> simp

@[simp] theorem init_lastPlayNote (s : BuzzerState) :
    (init s).lastPlayNote = s.lastPlayNote := by
  unfold init init2; split_ifs <;> simp

@[simp] theorem init_lastSetTone (s : BuzzerState) :
    (init s).lastSetTone = s.lastSetTone := by
  unfold init init2; split_ifs <;> simp

@[simp] theorem init_lastArmed (s : BuzzerState) :
    (init s).lastArmed = s.lastArmed := by
  unfold init init2; split_ifs <;> simp

@[simp] theorem init_buzzerSequence (s : BuzzerState) :
    (init s).buzzerSequence = s.buzzerSequence := by
  unfold init init2; split_ifs <;> simp

@[simp] theorem init_staccato_rest (s : BuzzerState) :
    (init s).staccato_rest_duration = s.staccato_rest_duration := by
  unfold init init2; split_ifs <;> simp

@[simp] theorem init_divByZero (s : BuzzerState) :
    (init s).divByZero = s.divByZero := by
  unfold init init2; split_ifs <;> simp

@[simp] theorem init_staccato (s : BuzzerState) :
    (init s).staccato = s.staccato := by
  unfold init init2; split_ifs <;> simp

@[simp] theorem init_volume (s : BuzzerState) :
    (init s).volume = s.volume := by
  unfold init init2; split_ifs <;> simp

@[simp] theorem init_whole (s : BuzzerState) :
    (init s).whole_note_duration = s.whole_note_duration := by
  unfold init init2; split_ifs <;> simp

@[simp] theorem init_note_type (s : BuzzerState) :
    (init s).note_type = s.note_type := by
  unfold init init2; split_ifs <;> simp

@[simp] theorem init_duration_field (s : BuzzerState) :
    (init s).duration = s.duration := by
  unfold init init2; split_ifs <;> simp

@[simp] theorem init_octave (s : BuzzerState) :
    (init s).octave = s.octave := by
  unfold init init2; split_ifs <;> simp

@[simp] theorem armOneShotTimer_timer (d : Nat) (s : BuzzerState) :
    (armOneShotTimer d s).timer = some true := rfl

@[simp] theorem armOneShotTimer_lastArmed (d : Nat) (s : BuzzerState) :
    (armOneShotTimer d s).lastArmed = some d := rfl

@[simp] theorem playFrequency_computedDuration (f d v : Nat) (s : BuzzerState) :
    (playFrequency f d v s).computedDuration = s.computedDuration := by
  simp only [playFrequency, armOneShotTimer]; split_ifs <;> simp

@[simp] theorem playFrequency_lastPlayNote (f d v : Nat) (s : BuzzerState) :
    (playFrequency f d v s).lastPlayNote = s.lastPlayNote := by
  simp only [playFrequency, armOneShotTimer]; split_ifs <;> simp

@[simp] theorem playFrequency_lastArmed (f d v : Nat) (s : BuzzerState) :
    (playFrequency f d v s).lastArmed = some (d % U32) := by
  simp only [playFrequency, armOneShotTimer]

@[simp] theorem playFrequency_buzzerSequence (f d v : Nat) (s : BuzzerState) :
    (playFrequency f d v s).buzzerSequence = s.buzzerSequence := by
  simp only [playFrequency, armOneShotTimer]; split_ifs <;> simp

@[simp] theorem playFrequency_staccato_rest (f d v : Nat) (s : BuzzerState) :
    (playFrequency f d v s).staccato_rest_duration = s.staccato_rest_duration := by
  simp only [playFrequency, armOneShotTimer]; split_ifs <;> simp

@[simp] theorem playFrequency_divByZero (f d v : Nat) (s : BuzzerState) :
    (playFrequency f d v s).divByZero = s.divByZero := by
  simp only [playFrequency, armOneShotTimer]; split_ifs <;> simp

@[simp] theorem playFrequency_timer (f d v : Nat) (s : BuzzerState) :
    (playFrequency f d v s).timer = some true := by
  simp only [playFrequency, armOneShotTimer]

@[simp] theorem playFrequency_buzzerFinished (f d v : Nat) (s : BuzzerState) :
    (playFrequency f d v s).buzzerFinished = false := by
  simp only [playFrequency, armOneShotTimer]

@[simp] theorem playFrequency_noteElapsed (f d v : Nat) (s : BuzzerState) :
    (playFrequency f d v s).noteElapsed = false := by
  simp only [playFrequency, armOneShotTimer]

@[simp] theorem playFrequency_buzzerTimeout (f d v : Nat) (s : BuzzerState) :
    (playFrequency f d v s).buzzerTimeout_ms = d % U32 := by
  simp only [playFrequency, armOneShotTimer]

@[simp] theorem playFrequency_staccato (f d v : Nat) (s : BuzzerState) :
    (playFrequency f d v s).staccato = s.staccato := by
  simp only [playFrequency, armOneShotTimer]; split_ifs <;> simp

@[simp] theorem playFrequency_volume (f d v : Nat) (s : BuzzerState) :
    (playFrequency f d v s).volume = s.volume := by
  simp only [playFrequency, armOneShotTimer]; split_ifs <;> simp

@[simp] theorem playFrequency_whole (f d v : Nat) (s : BuzzerState) :
    (playFrequency f d v s).whole_note_duration = s.whole_note_duration := by
  simp only [playFrequency, armOneShotTimer]; split_ifs <;> simp

@[simp] theorem playFrequency_note_type (f d v : Nat) (s : BuzzerState) :
    (playFrequency f d v s).note_type = s.note_type := by
  simp only [playFrequency, armOneShotTimer]; split_ifs <;> simp

@[simp] theorem playFrequency_duration_field (f d v : Nat) (s : BuzzerState) :
    (playFrequency f d v s).duration = s.duration := by
  simp only [playFrequency, armOneShotTimer]; split_ifs <;> simp

@[simp] theorem playFrequency_octave (f d v : Nat) (s : BuzzerState) :
    (playFrequency f d v s).octave = s.octave := by
  simp only [playFrequency, armOneShotTimer]; split_ifs <;> simp

/-- The volume handed to the Tone Driver by `playFrequency`: 0 stays 0
(with the 1 kHz bookkeeping frequency), anything above 15 is clamped. -/
theorem playFrequency_sentVolume (f d v : Nat) (s : BuzzerState) :
    ∃ fr, (playFrequency f d v s).lastSetTone =
      some (fr, if 15 < v % 256 then 15 else v % 256) := by
  simp only [playFrequency, armOneShotTimer]
  split_ifs <;> simp_all

@[simp] theorem playNote_lastPlayNote (n d v : Nat) (s : BuzzerState) :
    (playNote n d v s).lastPlayNote = some (n % 256, d % U32, v % 256) := by
  simp only [playNote]; split_ifs <;> simp

@[simp] theorem playNote_computedDuration (n d v : Nat) (s : BuzzerState) :
    (playNote n d v s).computedDuration = s.computedDuration := by
  simp only [playNote]; split_ifs <;> simp

@[simp] theorem playNote_buzzerSequence (n d v : Nat) (s : BuzzerState) :
    (playNote n d v s).buzzerSequence = s.buzzerSequence := by
  simp only [playNote]; split_ifs <;> simp

@[simp] theorem playNote_staccato_rest (n d v : Nat) (s : BuzzerState) :
    (playNote n d v s).staccato_rest_duration = s.staccato_rest_duration := by
  simp only [playNote]; split_ifs <;> simp

@[simp] theorem playNote_divByZero (n d v : Nat) (s : BuzzerState) :
    (playNote n d v s).divByZero = s.divByZero := by
  simp only [playNote]; split_ifs <;> simp

@[simp] theorem playNote_staccato (n d v : Nat) (s : BuzzerState) :
    (playNote n d v s).staccato = s.staccato := by
  simp only [playNote]; split_ifs <;> simp

@[simp] theorem playNote_buzzerFinished (n d v : Nat) (s : BuzzerState) :
    (playNote n d v s).buzzerFinished = false := by
  simp only [playNote]; split_ifs <;> simp

@[simp] theorem playNote_noteElapsed (n d v : Nat) (s : BuzzerState) :
    (playNote n d v s).noteElapsed = false := by
  simp only [playNote]; split_ifs <;> simp

@[simp] theorem playNote_timer (n d v : Nat) (s : BuzzerState) :
    (playNote n d v s).timer = some true := by
  simp only [playNote]; split_ifs <;> simp

@[simp] theorem playNote_lastArmed (n d v : Nat) (s : BuzzerState) :
    (playNote n d v s).lastArmed = some (d % U32) := by
  simp only [playNote]
  split_ifs <;> simp

@[simp] theorem playNote_buzzerTimeout (n d v : Nat) (s : BuzzerState) :
    (playNote n d v s).buzzerTimeout_ms = d % U32 := by
  simp only [playNote]
  split_ifs <;> simp

@[simp] theorem dispatch_computedDuration (n : Nat) (r : Bool) (d : Nat)
    (l : List Char) (s : BuzzerState) :
    (dispatch n r d l s).computedDuration = some d := by
  simp only [dispatch]; split_ifs <;> simp

@[simp] theorem dispatch_buzzerSequence (n : Nat) (r : Bool) (d : Nat)
    (l : List Char) (s : BuzzerState) :
    (dispatch n r d l s).buzzerSequence = some l := by
  simp only [dispatch]; split_ifs <;> simp

@[simp] theorem dispatch_divByZero (n : Nat) (r : Bool) (d : Nat)
    (l : List Char) (s : BuzzerState) :
    (dispatch n r d l s).divByZero = s.divByZero := by
  simp only [dispatch]; split_ifs <;> simp

theorem dispatch_lastPlayNote (n : Nat) (r : Bool) (d : Nat)
    (l : List Char) (s : BuzzerState) :
    (dispatch n r d l s).lastPlayNote =
      some ((if r then SILENT_NOTE else n) % 256,
            (if s.staccato then d - d / 2 % 256 else d) % U32,
            s.volume % 256) := by
  simp only [dispatch]; split_ifs <;> simp

theorem dispatch_staccato_rest (n : Nat) (r : Bool) (d : Nat)
    (l : List Char) (s : BuzzerState) :
    (dispatch n r d l s).staccato_rest_duration =
      if s.staccato then d / 2 % 256 else s.staccato_rest_duration := by
  simp only [dispatch]; split_ifs <;> simp

/-! ## Character-class lemmas -/

theorem lower_of_isDig {c : Char} (h : isDig c = true) : lower c = c := by
  have h9 : c ≤ '9' := by
    simp only [isDig, Bool.and_eq_true, decide_eq_true_eq] at h
    exact h.2
  unfold lower
  rw [if_neg]
  rintro ⟨hA, -⟩
  exact absurd (le_trans hA h9) (by decide)

theorem isDig_ne_space {c : Char} (h : isDig c = true) : c ≠ ' ' := by
  rintro rfl; revert h; decide

theorem isDig_ne_plus {c : Char} (h : isDig c = true) : c ≠ '+' := by
  rintro rfl; revert h; decide

theorem isDig_ne_hash {c : Char} (h : isDig c = true) : c ≠ '#' := by
  rintro rfl; revert h; decide

theorem isDig_ne_minus {c : Char} (h : isDig c = true) : c ≠ '-' := by
  rintro rfl; revert h; decide

theorem isDig_ne_dot {c : Char} (h : isDig c = true) : c ≠ '.' := by
  rintro rfl; revert h; decide

theorem skipSpaces_cons_of_ne {c : Char} (hc : c ≠ ' ') (l : List Char) :
    skipSpaces (c :: l) = c :: l := by
  simp [skipSpaces, hc]

theorem currentChar_cons_of_ne {c : Char} (hc : c ≠ ' ') (l : List Char) :
    currentChar (c :: l) = lower c := by
  simp [currentChar, skipSpaces_cons_of_ne hc]

theorem skipSpaces_skipSpaces (l : List Char) :
    skipSpaces (skipSpaces l) = skipSpaces l := by
  induction l with
  | nil => rfl
  | cons c cs ih =>
    by_cases hc : c = ' '
    · simp [skipSpaces, hc, ih]
    · simp [skipSpaces, hc]

theorem currentChar_skipSpaces (l : List Char) :
    currentChar (skipSpaces l) = currentChar l := by
  simp [currentChar, skipSpaces_skipSpaces]

/-! ## Behaviour of the small consuming loops on digit sequences -/

theorem sharps_stop {c : Char} (h : isDig c = true) (n : Nat) (l : List Char) :
    sharps n (c :: l) = (n, c :: l) := by
  simp [sharps, isDig_ne_space h, lower_of_isDig h, isDig_ne_plus h,
    isDig_ne_hash h]

theorem flats_stop {c : Char} (h : isDig c = true) (n : Nat) (l : List Char) :
    flats n (c :: l) = (n, c :: l) := by
  simp [flats, isDig_ne_space h, lower_of_isDig h, isDig_ne_minus h]

theorem getNumber_stop {l : List Char} (h : isDig (currentChar l) = false)
    (a : Nat) : getNumber a l = (a, skipSpaces l) := by
  induction l generalizing a with
  | nil => simp [getNumber, skipSpaces]
  | cons c cs ih =>
    by_cases hc : c = ' '
    · subst hc
      rw [show currentChar (' ' :: cs) = currentChar cs by
            simp [currentChar, skipSpaces]] at h
      simp only [getNumber, if_pos rfl, skipSpaces]
      simpa using ih h a
    · rw [currentChar_cons_of_ne hc] at h
      simp [getNumber, hc, h, skipSpaces]

theorem getNumber_app {ds : List Char} (h : ds.all isDig = true)
    (a : Nat) (rest : List Char) :
    getNumber a (ds ++ rest) = getNumber (ds.foldl digStep a) rest := by
  induction ds generalizing a with
  | nil => simp
  | cons c cs ih =>
    simp only [List.all_cons, Bool.and_eq_true] at h
    simp only [List.cons_append, getNumber, if_neg (isDig_ne_space h.1),
      lower_of_isDig h.1, h.1, if_pos, List.foldl_cons]
    exact ih h.2 _

theorem getNumber_digits {ds rest : List Char} (h : ds.all isDig = true)
    (hrest : isDig (currentChar rest) = false) (a : Nat) :
    getNumber a (ds ++ rest) = (ds.foldl digStep a, skipSpaces rest) := by
  rw [getNumber_app h, getNumber_stop hrest]

theorem dots_stop {l : List Char} (h : currentChar l ≠ '.') (d a : Nat) :
    dots d a l = (d, skipSpaces l) := by
  induction l with
  | nil => simp [dots, skipSpaces]
  | cons c cs ih =>
    by_cases hc : c = ' '
    · subst hc
      rw [show currentChar (' ' :: cs) = currentChar cs by
            simp [currentChar, skipSpaces]] at h
      simp only [dots, if_pos rfl, skipSpaces]
      simpa using ih h
    · rw [currentChar_cons_of_ne hc] at h
      simp [dots, hc, h, skipSpaces]

/-! ## Claim theorems -/

/-- C1 counterexample: the melody `"c9"` has a note token immediately
followed by the digit sequence `9` (a nonzero number), yet the resolved
duration is the default 500 ms, not `wholeNoteDurationMs / 9`: the guard
at line 330 is `c > '0' && c < '9'`, which excludes a leading digit 9. -/
theorem c1_counterexample :
    (play ['c', '9'] initState).computedDuration = some 500 ∧
    (play ['c', '9'] initState).lastPlayNote = some (48, 500, 15) ∧
    initState.whole_note_duration / 9 ≠ 500 := by decide

/-- C1 (amended): for every note token (a-g or r) immediately followed by
a decimal digit sequence whose first digit is between 1 and 8, denoting in
32-bit arithmetic a nonzero number n, and not followed by a dot, the
resolved duration of that note equals `wholeNoteDurationMs / n` (integer
division). -/
theorem c1_explicit_divisor_amended (c d1 : Char) (ds rest : List Char)
    (tmp : Nat) (s : BuzzerState)
    (hc : lower c ∈ ['a', 'b', 'c', 'd', 'e', 'f', 'g', 'r'])
    (hd1 : '0' < d1 ∧ d1 < '9')
    (hall : (d1 :: ds).all isDig = true)
    (hrest : isDig (currentChar rest) = false)
    (hdot : currentChar rest ≠ '.')
    (_hn : denotes32 (d1 :: ds) ≠ 0) :
    (parseLoop tmp (c :: ((d1 :: ds) ++ rest)) s).computedDuration =
      some (s.whole_note_duration / denotes32 (d1 :: ds)) := by
  have hd : isDig d1 = true := by
    simp only [List.all_cons, Bool.and_eq_true] at hall
    exact hall.1
  have hall' : (d1 :: ds).all isDig = true := hall
  have hcsp : c ≠ ' ' := by
    rintro rfl
    rw [show lower ' ' = ' ' from by decide] at hc
    revert hc; decide
  have hfin : ∀ base isRest,
      (finishNote base isRest tmp ((d1 :: ds) ++ rest) s).computedDuration =
        some (s.whole_note_duration / denotes32 (d1 :: ds)) := by
    intro base isRest
    simp only [finishNote, List.cons_append]
    simp only [sharps_stop hd, flats_stop hd]
    simp only [noteDuration, currentChar_cons_of_ne (isDig_ne_space hd),
      lower_of_isDig hd, if_pos hd1]
    rw [show d1 :: (ds ++ rest) = (d1 :: ds) ++ rest from rfl,
      getNumber_digits hall' hrest]
    simp only [denotes32]
    rw [dots_stop (by rw [currentChar_skipSpaces]; exact hdot)]
    simp
  rw [parseLoop_eq]
  simp only [List.mem_cons, List.not_mem_nil, or_false] at hc
  rcases hc with h | h | h | h | h | h | h | h <;>
    (simp [parseStep, parseStepAux, tokOf, hcsp, h]; exact hfin _ _)

/-- C1 witness: `"c16"` resolves to 2000 / 16 = 125 ms. -/
theorem c1_explicit_divisor_amended_witness :
    (parseLoop 4 ('c' :: (('1' :: ['6']) ++ [])) initState).computedDuration =
      some (initState.whole_note_duration / denotes32 ('1' :: ['6'])) :=
  c1_explicit_divisor_amended 'c' '1' ['6'] [] 4 initState (by decide)
    (by decide) (by decide) (by decide) (by decide) (by decide)

/-- C2 counterexample: with staccato on, the note `"c1"` has computed
duration d = 2000, but the stored pending rest is `d / 2 % 256 = 232`
(`staccato_rest_duration` is an `unsigned char`), so the sounded duration
is 1768, not `d - d / 2 = 1000`. -/
theorem c2_counterexample :
    (play ['m', 's', ' ', 'c', '1'] initState).computedDuration = some 2000 ∧
    (play ['m', 's', ' ', 'c', '1'] initState).lastPlayNote =
      some (48, 1768, 15) ∧
    (play ['m', 's', ' ', 'c', '1'] initState).staccato_rest_duration = 232 ∧
    2000 - 2000 / 2 ≠ 1768 ∧ 2000 / 2 ≠ 232 := by decide

/-- C2 (amended): when staccato is enabled, every parsed note of computed
duration d is dispatched with sounded duration `d - (d / 2 % 256)`, and
`d / 2 % 256` (the low byte of d / 2, since the carried rest is stored in
an `unsigned char`) is stored as the pending rest; when the stored rest is
nonzero, the next sequencer invocation emits it as a single silent note
(volume 0) without consuming melody characters, i.e. before the next
parsed note begins. -/
theorem c2_staccato_amended (note : Nat) (r : Bool) (d : Nat) (l : List Char)
    (s s' : BuzzerState) (h : s.staccato = true)
    (h2 : s'.staccato = true) (h3 : s'.staccato_rest_duration ≠ 0) :
    (dispatch note r d l s).staccato_rest_duration = d / 2 % 256 ∧
    (dispatch note r d l s).lastPlayNote =
      some ((if r then SILENT_NOTE else note) % 256, (d - d / 2 % 256) % U32,
        s.volume % 256) ∧
    (nextNote s').lastPlayNote =
      some (SILENT_NOTE, s'.staccato_rest_duration % U32, 0) ∧
    (nextNote s').staccato_rest_duration = 0 ∧
    (nextNote s').buzzerSequence = s'.buzzerSequence := by
  refine ⟨?_, ?_, ?_, ?_, ?_⟩
  · rw [dispatch_staccato_rest, if_pos h]
  · rw [dispatch_lastPlayNote, if_pos h]
  · simp [nextNote, h2, h3, SILENT_NOTE]
  · simp [nextNote, h2, h3]
  · simp [nextNote, h2, h3]

/-- C2 witness: a staccato note of duration 2000 sounds for 1768 ms and
stores a 232 ms rest; a pending 232 ms rest is then emitted silently. -/
theorem c2_staccato_amended_witness :
    (dispatch 48 false 2000 [] { initState with staccato := true }).staccato_rest_duration = 2000 / 2 % 256 ∧
    (dispatch 48 false 2000 [] { initState with staccato := true }).lastPlayNote = some ((if false then SILENT_NOTE else 48) % 256, (2000 - 2000 / 2 % 256) % U32, initState.volume % 256) ∧
    (nextNote { initState with staccato := true, staccato_rest_duration := 232 }).lastPlayNote = some (SILENT_NOTE, 232 % U32, 0) ∧
    (nextNote { initState with staccato := true, staccato_rest_duration := 232 }).staccato_rest_duration = 0 ∧
    (nextNote { initState with staccato := true, staccato_rest_duration := 232 }).buzzerSequence = ({ initState with staccato := true, staccato_rest_duration := 232 } : BuzzerState).buzzerSequence :=
  c2_staccato_amended 48 false 2000 [] { initState with staccato := true }
    { initState with staccato := true, staccato_rest_duration := 232 }
    rfl rfl (by decide)

/-- C3: for the melody token `"c4."` with default playback state
(wholeNoteDurationMs = 2000), the resolved duration is
`2000 / 4 + (2000 / 4) / 2 = 750` ms, i.e. `(2000 / 4) * 1.5` with the
dot-halving rule and integer truncation; the note is dispatched and the
timer armed with exactly that duration. -/
theorem c3_dotted_quarter :
    (play ['c', '4', '.'] initState).computedDuration =
      some (2000 / 4 + 2000 / 4 / 2) ∧
    (play ['c', '4', '.'] initState).lastPlayNote = some (48, 750, 15) ∧
    (play ['c', '4', '.'] initState).lastArmed = some 750 ∧
    2000 / 4 + 2000 / 4 / 2 = 750 := by decide

/-- C4 counterexample: the token `t4294967297` denotes the nonzero number
4294967297, but `getNumber` accumulates in 32-bit arithmetic, so the
parser computes 60 * 400 / 1 * 10 = 240000, not
60 * 400 / 4294967297 * 10 = 0. -/
theorem c4_counterexample :
    (play ('t' :: ['4', '2', '9', '4', '9', '6', '7', '2', '9', '7'])
        initState).whole_note_duration = 240000 ∧
    denotes32 ['4', '2', '9', '4', '9', '6', '7', '2', '9', '7'] = 1 ∧
    60 * 400 / 4294967297 * 10 ≠ 240000 := by decide

/-- C4 (amended): for every token t<number> whose digit sequence denotes
in 32-bit arithmetic a number n with 0 < n < 2^32, the parser sets
wholeNoteDurationMs to `60 * 400 / n * 10` (divide first, then multiply
by 10) and recomputes the default duration as
`wholeNoteDurationMs / noteType`. -/
theorem c4_tempo_amended (ds rest : List Char) (tmp : Nat) (s : BuzzerState)
    (hall : ds.all isDig = true)
    (hrest : isDig (currentChar rest) = false)
    (hn : denotes32 ds ≠ 0) :
    parseLoop tmp ('t' :: (ds ++ rest)) s =
      parseLoop tmp (skipSpaces rest)
        { s with whole_note_duration := 60 * 400 / denotes32 ds * 10,
                 duration := 60 * 400 / denotes32 ds * 10 / s.note_type,
                 divByZero := s.divByZero || decide (s.note_type = 0) } := by
  have hn' : List.foldl digStep 0 ds ≠ 0 := hn
  rw [parseLoop_eq]
  simp [parseStep, parseStepAux, tokOf, lower, getNumber_digits hall hrest,
    denotes32, hn']

/-- C4 witness: `t120` sets wholeNoteDurationMs to 60 * 400 / 120 * 10 =
2000 and the default duration to 2000 / 4 = 500. -/
theorem c4_tempo_amended_witness :
    parseLoop 4 ('t' :: (['1', '2', '0'] ++ [])) initState =
      parseLoop 4 (skipSpaces [])
        { initState with
            whole_note_duration := 60 * 400 / denotes32 ['1', '2', '0'] * 10,
            duration := 60 * 400 / denotes32 ['1', '2', '0'] * 10 /
              initState.note_type,
            divByZero := initState.divByZero ||
              decide (initState.note_type = 0) } :=
  c4_tempo_amended ['1', '2', '0'] [] 4 initState (by decide) (by decide)
    (by decide)

/-- C5 counterexample: when the timer has expired before `stopPlaying`,
the note-elapsed flag is still set on the stopped session (`stopPlaying`
does not clear it), and the next `playCheck` clears it: `playCheck`
returns false but does change the state. -/
theorem c5_counterexample :
    (playCheck (stopPlaying (onTimerDone (play ['c'] initState)))).2 ≠
      stopPlaying (onTimerDone (play ['c'] initState)) ∧
    (stopPlaying (onTimerDone (play ['c'] initState))).noteElapsed = true ∧
    (playCheck (stopPlaying (onTimerDone (play ['c'] initState)))).1 =
      false := by decide

/-- C5 (amended): in every state, `stopPlaying()` silences the tone
output (duty 0), stops the duration timer, and marks the session inactive
so that `isPlaying()` returns false immediately afterwards; repeating
`stopPlaying()` changes nothing, and `playCheck()` on the resulting
inactive session returns false and changes nothing except clearing a
stale note-elapsed flag. -/
theorem c5_stop_amended (s : BuzzerState) :
    isPlaying (stopPlaying s) = false ∧
    (stopPlaying s).duty = 0 ∧
    (stopPlaying s).timer ≠ some true ∧
    stopPlaying (stopPlaying s) = stopPlaying s ∧
    playCheck (stopPlaying s) =
      (false, { stopPlaying s with noteElapsed := false }) := by
  refine ⟨by simp [isPlaying, stopPlaying], rfl, ?_, ?_, ?_⟩
  · cases h : s.timer <;> simp [stopPlaying, h]
  · cases h : s.timer <;> simp [stopPlaying, h]
  · obtain ⟨o, w, nt, du, vo, st, sr, seq, ups, bi, bf, bt, pm, tm, ne, la,
      cf, dy, lpn, lst, lar, cd, dbz⟩ := s
    cases ne <;> cases tm <;>
      simp [playCheck, stopPlaying, nextNote, PLAY_AUTOMATIC]

/-- C6 counterexample: calling `play` with an unrecognized first character
while a previous note is still sounding clears the cursor but leaves
`buzzerFinished` unset, so `isPlaying()` stays true until the timer fires
rather than becoming false immediately. -/
theorem c6_counterexample :
    (play ['x'] (play ['c'] initState)).buzzerSequence = none ∧
    isPlaying (play ['x'] (play ['c'] initState)) = true := by decide

/-- C6 (amended): for every melody character that is not a recognized
token, the parser terminates the session: the cursor is cleared to null,
no error is reported, and the result is identical to reaching the natural
end of the string, so the caller cannot distinguish malformed input from
end-of-string; `isPlaying()` is false provided no note is still sounding
(`buzzerFinished` set), and otherwise stays true until the note's timer
fires. -/
theorem c6_unrecognized_amended (c : Char) (tmp : Nat) (l : List Char)
    (s : BuzzerState)
    (h : lower c ∉ [' ', '>', '<', 'a', 'b', 'c', 'd', 'e', 'f', 'g',
                    'l', 'm', 'o', 'r', 't', 'v', '!']) :
    parseLoop tmp (c :: l) s = { s with buzzerSequence := none } ∧
    parseLoop tmp (c :: l) s = parseLoop tmp [] s ∧
    (s.buzzerFinished = true → isPlaying (parseLoop tmp (c :: l) s) = false) := by
  simp only [List.mem_cons, List.not_mem_nil, or_false, not_or] at h
  obtain ⟨hsp, h1, h2, h3, h4, h5, h6, h7, h8, h9, h10, h11, h12, h13, h14,
    h15, h16⟩ := h
  have hcsp : c ≠ ' ' := by
    rintro rfl
    exact hsp (by decide)
  have hmain : parseLoop tmp (c :: l) s = { s with buzzerSequence := none } := by
    rw [parseLoop_eq]
    simp [parseStep, parseStepAux, tokOf, hcsp, h1, h2, h3, h4, h5, h6, h7,
      h8, h9, h10, h11, h12, h13, h14, h15, h16]
  refine ⟨hmain, ?_, ?_⟩
  · rw [hmain]; rfl
  · intro hb
    rw [hmain]
    simp [isPlaying, hb]

/-- C6 witness: the character `x` terminates the session like
end-of-string. -/
theorem c6_unrecognized_amended_witness :
    parseLoop 0 ('x' :: ['a']) initState =
      { initState with buzzerSequence := none } ∧
    parseLoop 0 ('x' :: ['a']) initState = parseLoop 0 [] initState ∧
    (initState.buzzerFinished = true →
      isPlaying (parseLoop 0 ('x' :: ['a']) initState) = false) :=
  c6_unrecognized_amended 'x' 0 ['a'] initState (by decide)

/-- C7: for every duration d and frequency f, `playFrequency(f, d, 0)`
silences the output (duty 0, via the 1 kHz bookkeeping tone) but still
arms the duration timer for the full duration, records the timeout, and
marks playback in progress (`buzzerFinished` cleared, `isPlaying` true) —
the same timing bookkeeping as a sounded note of any volume. -/
theorem c7_silent_still_timed (f d : Nat) (s : BuzzerState) :
    (playFrequency f d 0 s).duty = 0 ∧
    (playFrequency f d 0 s).lastSetTone = some (1000, 0) ∧
    (playFrequency f d 0 s).lastArmed = some (d % U32) ∧
    (playFrequency f d 0 s).buzzerTimeout_ms = d % U32 ∧
    (playFrequency f d 0 s).buzzerFinished = false ∧
    (playFrequency f d 0 s).timer = some true ∧
    isPlaying (playFrequency f d 0 s) = true ∧
    (∀ v, (playFrequency f d v s).lastArmed = (playFrequency f d 0 s).lastArmed ∧
      (playFrequency f d v s).buzzerTimeout_ms =
        (playFrequency f d 0 s).buzzerTimeout_ms ∧
      (playFrequency f d v s).buzzerFinished =
        (playFrequency f d 0 s).buzzerFinished) := by
  refine ⟨?_, ?_, by simp, by simp, by simp, by simp, by simp [isPlaying],
    by simp⟩
  · simp only [playFrequency, armOneShotTimer]
    norm_num [ledcSetTone_duty]
  · simp only [playFrequency, armOneShotTimer]
    norm_num

/-- C8: for every volume input greater than 15 (within the `unsigned
char` domain), the volume handed to `ledcSetTone`, the Tone Driver entry,
is exactly 15; and for every input whatsoever the handed volume lies in
[0, 15]. -/
theorem c8_volume_clamped (f d v : Nat) (s : BuzzerState)
    (h15 : 15 < v) (h256 : v < 256) :
    ((playFrequency f d v s).lastSetTone.map Prod.snd = some 15) ∧
    ∀ w, ∃ fr p, (playFrequency f d w s).lastSetTone = some (fr, p) ∧
      p ≤ 15 := by
  constructor
  · obtain ⟨fr, hfr⟩ := playFrequency_sentVolume f d v s
    rw [Nat.mod_eq_of_lt h256] at hfr
    rw [hfr, if_pos h15]
    rfl
  · intro w
    obtain ⟨fr, hfr⟩ := playFrequency_sentVolume f d w s
    exact ⟨fr, _, hfr, by split <;> omega⟩

/-- C8 witness: volume input 20 is handed to the Tone Driver as 15. -/
theorem c8_volume_clamped_witness :
    (playFrequency 440 100 20 initState).lastSetTone.map Prod.snd =
      some 15 :=
  (c8_volume_clamped 440 100 20 initState (by decide) (by decide)).1

/-- C9: octave tokens wrap the session octave with fixed-width unsigned
(mod 256) arithmetic instead of clamping or rejecting: `<` maps the
session octave tmp to (tmp + 255) % 256 (so octave 0 wraps to 255, the
maximum representable value) and `>` maps it to (tmp + 1) % 256;
concretely, `"o0 < c"` dispatches the note value (0 + 255 * 12) % 256 =
244. -/
theorem c9_octave_wraparound (tmp : Nat) (l : List Char) (s : BuzzerState) :
    parseLoop tmp ('<' :: l) s = parseLoop ((tmp + 255) % 256) l s ∧
    parseLoop tmp ('>' :: l) s = parseLoop ((tmp + 1) % 256) l s ∧
    parseLoop 0 ('<' :: l) s = parseLoop 255 l s ∧
    (play ['o', '0', '<', 'c'] initState).lastPlayNote =
      some (244, 500, 15) := by
  refine ⟨?_, ?_, ?_, by decide⟩
  · rw [parseLoop_eq]
    simp [parseStep, parseStepAux, tokOf, lower]
  · rw [parseLoop_eq]
    simp [parseStep, parseStepAux, tokOf, lower]
  · rw [parseLoop_eq]
    simp [parseStep, parseStepAux, tokOf, lower]

/-- C10: when an `l` or `t` token is not immediately followed by a
decimal digit, `getNumber` returns 0 and the subsequent duration
computation divides by zero (`note_type = 0` for `l`, `60 * 400 / 0` for
`t`; undefined behaviour in C, recorded by the `divByZero` ghost flag);
the branch is reachable from the public `play()` entry point. -/
theorem c10_division_by_zero_reachable (rest : List Char) (tmp : Nat)
    (s : BuzzerState) (h : isDig (currentChar rest) = false) :
    (getNumber 0 rest).1 = 0 ∧
    parseLoop tmp ('l' :: rest) s =
      parseLoop tmp (skipSpaces rest)
        { s with note_type := 0, duration := s.whole_note_duration / 0,
                 divByZero := true } ∧
    parseLoop tmp ('t' :: rest) s =
      parseLoop tmp (skipSpaces rest)
        { s with whole_note_duration := 60 * 400 / 0 * 10,
                 duration := 60 * 400 / 0 * 10 / s.note_type,
                 divByZero := true } ∧
    (play ['l'] initState).divByZero = true ∧
    (play ['t'] initState).divByZero = true := by
  have hstop := getNumber_stop h 0
  refine ⟨by rw [hstop], ?_, ?_, by decide, by decide⟩
  · rw [parseLoop_eq]
    simp [parseStep, parseStepAux, tokOf, lower, hstop]
  · rw [parseLoop_eq]
    simp [parseStep, parseStepAux, tokOf, lower, hstop]

/-- C10 witness: a bare `l` or `t` at the end of the melody yields
divisor 0. -/
theorem c10_division_by_zero_reachable_witness :
    (getNumber 0 ([] : List Char)).1 = 0 ∧
    parseLoop 4 ('l' :: []) initState =
      parseLoop 4 (skipSpaces [])
        { initState with note_type := 0,
                         duration := initState.whole_note_duration / 0,
                         divByZero := true } ∧
    parseLoop 4 ('t' :: []) initState =
      parseLoop 4 (skipSpaces [])
        { initState with whole_note_duration := 60 * 400 / 0 * 10,
                         duration := 60 * 400 / 0 * 10 / initState.note_type,
                         divByZero := true } ∧
    (play ['l'] initState).divByZero = true ∧
    (play ['t'] initState).divByZero = true :=
  c10_division_by_zero_reachable [] 4 initState (by decide)
